import Mathlib

/-!
Verification of the VoiceAgentBridge session-bridging subsystem.

The definitions below are a shallow embedding of the TypeScript sources:
  - `src/src/utils/session-manager.ts` (`SessionManager` and its data model),
  - `src/src/connectors/si2-connector.ts` (`SI2Connector`: reconnect policy,
    frame parsing/dispatch, `sendAudio`),
  - the `SIPAdapter` event handlers installed by `setupEventHandlers`,
  - the `AudioPipeline` conversion functions.

JavaScript `Map`s are embedded as association lists with `Map` semantics
(insertion order preserved, `set` on an existing key updates in place),
`Date` values as natural-number timestamps, and byte `Buffer`s as `List Nat`.
-/

namespace VoiceAgentBridge

/-- `DataCollectionPoint` from `si2-connector.ts`: `id`, `data` (an `any`
payload, embedded as a string), `timestamp`. -/
structure DataCollectionPoint where
  id : String
  data : String
  timestamp : Nat
  deriving Repr, DecidableEq

/-- `AgentHandoffData` from `si2-connector.ts`: `fromAgent`, `toAgent`,
`context` (an `any` payload, embedded as a string). -/
structure AgentHandoffData where
  fromAgent : String
  toAgent : String
  context : String
  deriving Repr, DecidableEq

/-- The protocol union type of `BridgeSession.protocol`. -/
inductive Protocol where
  | sip
  | webrtc
  | websocket
  deriving Repr, DecidableEq

/-- `SessionStats` from `session-manager.ts`. -/
structure SessionStats where
  audioChunksProcessed : Nat
  messagesExchanged : Nat
  agentHandoffs : Nat
  dataPointsCollected : Nat
  errors : Nat
  avgLatency : Nat
  deriving Repr, DecidableEq

/-- `BridgeSession` from `session-manager.ts`; `config` is an opaque blob,
embedded as a string. -/
structure BridgeSession where
  sessionId : String
  roomName : String
  participantId : String
  protocol : Protocol
  startTime : Nat
  endTime : Option Nat
  currentAgent : String
  collectedData : List DataCollectionPoint
  config : String
  stats : SessionStats
  deriving Repr, DecidableEq

/-- `SessionConfig` from `session-manager.ts`. -/
structure SessionConfig where
  sessionId : String
  roomName : String
  participantId : String
  protocol : Protocol
  config : String
  deriving Repr, DecidableEq

/-- `Partial SessionStats` as accepted by `updateSessionStats`: every field
optional; present fields overwrite via `Object.assign`. -/
structure StatsUpdate where
  audioChunksProcessed : Option Nat
  messagesExchanged : Option Nat
  agentHandoffs : Option Nat
  dataPointsCollected : Option Nat
  errors : Option Nat
  avgLatency : Option Nat
  deriving Repr, DecidableEq

/-- `Object.assign(stats, updates)`: fields present in `updates` overwrite,
absent fields are kept. -/
def applyStatsUpdate (stats : SessionStats) (u : StatsUpdate) : SessionStats where
  audioChunksProcessed := u.audioChunksProcessed.getD stats.audioChunksProcessed
  messagesExchanged := u.messagesExchanged.getD stats.messagesExchanged
  agentHandoffs := u.agentHandoffs.getD stats.agentHandoffs
  dataPointsCollected := u.dataPointsCollected.getD stats.dataPointsCollected
  errors := u.errors.getD stats.errors
  avgLatency := u.avgLatency.getD stats.avgLatency

/-- The association-list embedding of the `activeSessions` JavaScript `Map`. -/
abbrev SessionMap := List (String × BridgeSession)

/-- `Map.get`: value of the entry with the given key (a JavaScript `Map`
holds at most one entry per key). -/
def mapGet : SessionMap → String → Option BridgeSession
  | [], _ => none
  | p :: t, k => if p.1 == k then some p.2 else mapGet t k

/-- `Map.set`: update in place when the key is present (keeping its
insertion position), append otherwise. -/
def mapSet : SessionMap → String → BridgeSession → SessionMap
  | [], k, v => [(k, v)]
  | p :: t, k, v => if p.1 == k then (k, v) :: t else p :: mapSet t k v

/-- In-place mutation of the session stored under `k` (the JavaScript code
mutates the object held by the `Map`, which leaves its position unchanged). -/
def mapUpdate : SessionMap → String → (BridgeSession → BridgeSession) → SessionMap
  | [], _, _ => []
  | p :: t, k, f => if p.1 == k then (p.1, f p.2) :: t else p :: mapUpdate t k f

/-- `Map.delete`. -/
def mapDelete : SessionMap → String → SessionMap
  | [], _ => []
  | p :: t, k => if p.1 == k then mapDelete t k else p :: mapDelete t k

/-- The mutable state of a `SessionManager`: `activeSessions` and
`sessionHistory`. -/
structure ManagerState where
  activeSessions : SessionMap
  sessionHistory : List BridgeSession
  deriving Repr, DecidableEq

/-- The state built by the `SessionManager` constructor. -/
def initialState : ManagerState where
  activeSessions := []
  sessionHistory := []

/-- `SessionManager.createSession`: builds the session record (initial agent
`"authentication"`, empty `collectedData`, zeroed stats) and stores it with
`Map.set` — there is no duplicate check. Returns the session and the new
state. -/
def createSession (st : ManagerState) (config : SessionConfig) (now : Nat) :
    BridgeSession × ManagerState :=
  let session : BridgeSession :=
    { sessionId := config.sessionId
      roomName := config.roomName
      participantId := config.participantId
      protocol := config.protocol
      startTime := now
      endTime := none
      currentAgent := "authentication"
      collectedData := []
      config := config.config
      stats :=
        { audioChunksProcessed := 0
          messagesExchanged := 0
          agentHandoffs := 0
          dataPointsCollected := 0
          errors := 0
          avgLatency := 0 } }
  (session, { st with activeSessions := mapSet st.activeSessions session.sessionId session })

/-- `SessionManager.getSession`. -/
def getSession (st : ManagerState) (sessionId : String) : Option BridgeSession :=
  mapGet st.activeSessions sessionId

/-- `SessionManager.updateSessionStats`: warn-and-return when the session is
unknown; otherwise `Object.assign(session.stats, updates)`. -/
def updateSessionStats (st : ManagerState) (sessionId : String) (updates : StatsUpdate) :
    ManagerState :=
  match getSession st sessionId with
  | none => st
  | some _ =>
    { st with
        activeSessions := mapUpdate st.activeSessions sessionId
          (fun s => { s with stats := applyStatsUpdate s.stats updates }) }

/-- `SessionManager.addDataPoint`: warn-and-return when the session is
unknown; otherwise push onto `collectedData` and increment
`stats.dataPointsCollected`. -/
def addDataPoint (st : ManagerState) (sessionId : String) (dataPoint : DataCollectionPoint) :
    ManagerState :=
  match getSession st sessionId with
  | none => st
  | some _ =>
    { st with
        activeSessions := mapUpdate st.activeSessions sessionId
          (fun s =>
            { s with
                collectedData := s.collectedData ++ [dataPoint]
                stats :=
                  { s.stats with dataPointsCollected := s.stats.dataPointsCollected + 1 } }) }

/-- `SessionManager.recordAgentHandoff`: warn-and-return when the session is
unknown; otherwise set `currentAgent` to `toAgent` and increment
`stats.agentHandoffs`. -/
def recordAgentHandoff (st : ManagerState) (sessionId fromAgent toAgent : String) :
    ManagerState :=
  match getSession st sessionId with
  | none => st
  | some _ =>
    { st with
        activeSessions := mapUpdate st.activeSessions sessionId
          (fun s =>
            { s with
                currentAgent := toAgent
                stats := { s.stats with agentHandoffs := s.stats.agentHandoffs + 1 } }) }

/-- `if (this.sessionHistory.length > 100) this.sessionHistory =
this.sessionHistory.slice(-100)`: keep only the last 100 history entries. -/
def trimHistory (history : List BridgeSession) : List BridgeSession :=
  if history.length > 100 then history.drop (history.length - 100) else history

/-- `SessionManager.endSession`: not-found returns `undefined` and leaves the
state unchanged; otherwise set `endTime`, push the session onto
`sessionHistory`, trim the history to its last 100 entries, and delete the
session from `activeSessions`. -/
def endSession (st : ManagerState) (sessionId : String) (now : Nat) :
    Option BridgeSession × ManagerState :=
  match getSession st sessionId with
  | none => (none, st)
  | some session =>
    let ended : BridgeSession := { session with endTime := some now }
    (some ended,
      { st with
          sessionHistory := trimHistory (st.sessionHistory ++ [ended])
          activeSessions := mapDelete st.activeSessions sessionId })

/-- The `data_collection` handler installed by `SIPAdapter.setupEventHandlers`:
`this.session.collectedData.push(dataPoint)` — the stats counters are left
untouched. -/
def sipAdapterOnDataCollection (session : BridgeSession) (dataPoint : DataCollectionPoint) :
    BridgeSession :=
  { session with collectedData := session.collectedData ++ [dataPoint] }

/-- The events an `SI2Connector` emits (`si2-connector.ts`): connection
lifecycle events from the socket handlers and the dispatch targets of
`handleMessage`. This is the connector's complete event vocabulary — the
source emits nothing else. -/
inductive ConnectorEvent where
  | connected
  | disconnected
  | errorEvt (message : String)
  | audio (payload : String)
  | text (payload : String)
  | handoff (payload : AgentHandoffData)
  | data_collection (payload : DataCollectionPoint)
  | session_end
  deriving Repr, DecidableEq

/-- A successfully parsed inbound message, by its `type` tag as matched in
`SI2Connector.handleMessage`; `unknown` covers every other tag. -/
inductive SI2Message where
  | audio (payload : String)
  | text (payload : String)
  | agent_handoff (payload : AgentHandoffData)
  | data_collection (payload : DataCollectionPoint)
  | session_end
  | unknown (msgType : String)
  deriving Repr, DecidableEq

/-- `SI2Connector.handleMessage`: dispatch by `message.type`; an unknown type
is logged and dropped without error. Returns the emitted events. -/
def handleMessage : SI2Message → List ConnectorEvent
  | .audio payload => [.audio payload]
  | .text payload => [.text payload]
  | .agent_handoff payload => [.handoff payload]
  | .data_collection payload => [.data_collection payload]
  | .session_end => [.session_end]
  | .unknown _ => []

/-- Connection-level state of an `SI2Connector`: whether the socket is open
(`ws && ws.readyState === OPEN`), the reconnect counter, and the configured
maximum (5 in the source). -/
structure SI2Connector where
  wsOpen : Bool
  reconnectAttempts : Nat
  maxReconnectAttempts : Nat
  deriving Repr, DecidableEq

/-- A freshly constructed connector before any transport activity. -/
def initConnector : SI2Connector where
  wsOpen := false
  reconnectAttempts := 0
  maxReconnectAttempts := 5

/-- The `ws.on('message')` handler: `JSON.parse` then `handleMessage`; a parse
failure (`frame = none`) is caught and logged, nothing else happens — the
connector state is untouched and no event is emitted. -/
def onMessageFrame (c : SI2Connector) (frame : Option SI2Message) :
    SI2Connector × List ConnectorEvent :=
  match frame with
  | some msg => (c, handleMessage msg)
  | none => (c, [])

/-- Sequential processing of inbound frames in receipt order. -/
def processFrames (c : SI2Connector) (frames : List (Option SI2Message)) :
    SI2Connector × List ConnectorEvent :=
  match frames with
  | [] => (c, [])
  | f :: rest =>
    let step := onMessageFrame c f
    let tail := processFrames step.1 rest
    (tail.1, step.2 ++ tail.2)

/-- `SI2Connector.attemptReconnect`: when the counter is below the maximum,
increment it and schedule a `connect()`; otherwise do nothing. Returns the
updated connector and whether a connect was scheduled. No event is emitted in
either branch. -/
def attemptReconnect (c : SI2Connector) : SI2Connector × Bool :=
  if c.reconnectAttempts < c.maxReconnectAttempts then
    ({ c with reconnectAttempts := c.reconnectAttempts + 1 }, true)
  else
    (c, false)

/-- The `ws.on('close')` handler: the socket is no longer open, a
`disconnected` event is emitted, then `attemptReconnect` runs. Returns the
connector, the emitted events, and whether a reconnect was scheduled. -/
def onClose (c : SI2Connector) : SI2Connector × List ConnectorEvent × Bool :=
  let closed : SI2Connector := { c with wsOpen := false }
  let r := attemptReconnect closed
  (r.1, [.disconnected], r.2)

/-- The `ws.on('open')` handler: reset the reconnect counter and emit
`connected`. -/
def onOpen (c : SI2Connector) : SI2Connector × List ConnectorEvent :=
  ({ c with wsOpen := true, reconnectAttempts := 0 }, [.connected])

/-- A run of `n` consecutive transport closures (every scheduled reconnect
fails again with a closure, no `open` in between): fold `onClose`, counting
the reconnect attempts scheduled and collecting every emitted event. -/
def runClosures (c : SI2Connector) : Nat → SI2Connector × Nat × List ConnectorEvent
  | 0 => (c, 0, [])
  | n + 1 =>
    let step := onClose c
    let tail := runClosures step.1 n
    (tail.1, (if step.2.2 then 1 else 0) + tail.2.1, step.2.1 ++ tail.2.2)

/-- The envelope written by `SI2Connector.sendAudio` when the socket is open:
base64 `data` (embedded as the raw bytes), `format: 'pcm'`,
`sampleRate: 16000`. -/
structure AudioEnvelope where
  data : List Nat
  format : String
  sampleRate : Nat
  deriving Repr, DecidableEq

/-- The observable effect of one `sendAudio` call: the envelope written to the
socket, if any, and the exception raised, if any. -/
structure SendEffect where
  transmitted : Option AudioEnvelope
  thrown : Option String
  deriving Repr, DecidableEq

/-- `SI2Connector.sendAudio`: when `ws && ws.readyState === OPEN`, wrap the
buffer in an audio envelope and write it; otherwise fall through — nothing is
written, nothing is queued, and no exception is raised. -/
def sendAudio (c : SI2Connector) (audioBuffer : List Nat) : SendEffect :=
  if c.wsOpen then
    { transmitted := some { data := audioBuffer, format := "pcm", sampleRate := 16000 }
      thrown := none }
  else
    { transmitted := none, thrown := none }

/-- `AudioPipeline.ensureSI2Format`: the source returns its input unchanged
(the conversion is a pass-through). -/
def ensureSI2Format (pcmData : List Nat) : List Nat :=
  pcmData

/-- `AudioPipeline.ensureLiveKitFormat`: the source returns its input
unchanged. -/
def ensureLiveKitFormat (buffer : List Nat) : List Nat :=
  buffer

/-- `AudioPipeline.convertLiveKitToSI2`. -/
def convertLiveKitToSI2 (audioBuffer : List Nat) : List Nat :=
  ensureSI2Format audioBuffer

/-- The `audioData: any` argument of `convertSI2ToLiveKit`: a base64 string, a
`Buffer`, an object with a base64 `data` field, or anything else. -/
inductive AudioData where
  | base64Str (s : String)
  | buf (b : List Nat)
  | structured (data : String)
  | otherShape
  deriving Repr, DecidableEq

/-- `AudioPipeline.convertSI2ToLiveKit`: decode by shape (base64 decoding is
Node's `Buffer.from(_, 'base64')`, passed here as `base64Decode`), throw on an
unknown shape, then `ensureLiveKitFormat`. -/
def convertSI2ToLiveKit (base64Decode : String → List Nat) :
    AudioData → Except String (List Nat)
  | .base64Str s => .ok (ensureLiveKitFormat (base64Decode s))
  | .buf b => .ok (ensureLiveKitFormat b)
  | .structured data => .ok (ensureLiveKitFormat (base64Decode data))
  | .otherShape => .error "Unknown audio data format"

/-- Pointwise order on the five stats counters (the running average latency is
not a counter). -/
def StatsLe (a b : SessionStats) : Prop :=
  a.audioChunksProcessed ≤ b.audioChunksProcessed ∧
  a.messagesExchanged ≤ b.messagesExchanged ∧
  a.agentHandoffs ≤ b.agentHandoffs ∧
  a.dataPointsCollected ≤ b.dataPointsCollected ∧
  a.errors ≤ b.errors

/-- A sequence of `recordAgentHandoff` calls on one session id, applied in
call order. -/
def runHandoffs (st : ManagerState) (sessionId : String) (calls : List (String × String)) :
    ManagerState :=
  calls.foldl (fun s c => recordAgentHandoff s sessionId c.1 c.2) st

/-- A sequence of `addDataPoint` calls on one session id, applied in call
order. -/
def runDataPoints (st : ManagerState) (sessionId : String) (points : List DataCollectionPoint) :
    ManagerState :=
  points.foldl (fun s p => addDataPoint s sessionId p) st

/-- Dispatch of one connector event into the session-mutating `SIPAdapter`
handlers. Only the `data_collection` handler touches `collectedData` or
`stats`; the `handoff` handler writes only `currentAgent` and the
`session_end` handler only disconnects, so for the data/stats state tracked
here every other event leaves the session unchanged. -/
def adapterDispatch (session : BridgeSession) (e : ConnectorEvent) : BridgeSession :=
  match e with
  | .data_collection dp => sipAdapterOnDataCollection session dp
  | _ => session

/-- One inbound frame processed end to end: the connector parses and
dispatches it, and the adapter handlers fold the resulting events into the
owning session. -/
def frameRound (c : SI2Connector) (session : BridgeSession) (frame : Option SI2Message) :
    SI2Connector × BridgeSession :=
  let step := onMessageFrame c frame
  (step.1, step.2.foldl adapterDispatch session)

/-- A concrete session descriptor used for witnesses and counterexamples. -/
def cfgDemo : SessionConfig where
  sessionId := "call-1"
  roomName := "room-1"
  participantId := "p-1"
  protocol := .sip
  config := "cfg"

/-- A concrete data point used for witnesses and counterexamples. -/
def dpDemo : DataCollectionPoint where
  id := "full_name"
  data := "Asha Rao"
  timestamp := 3

/-- The session freshly created from `cfgDemo` at time 0. -/
def sessDemo : BridgeSession :=
  (createSession initialState cfgDemo 0).1

/-- The manager state holding `sessDemo`. -/
def stDemo1 : ManagerState :=
  (createSession initialState cfgDemo 0).2

/-- `stDemo1` after one `addDataPoint` call. -/
def stDemo : ManagerState :=
  addDataPoint stDemo1 "call-1" dpDemo

/-- `sessDemo` after that `addDataPoint` call. -/
def dataDemoSession : BridgeSession :=
  { sessDemo with
      collectedData := [dpDemo]
      stats := { sessDemo.stats with dataPointsCollected := 1 } }

/-- `sessDemo` as ended at time 7. -/
def endedDemo : BridgeSession :=
  { sessDemo with endTime := some 7 }

/-- A connector whose socket is open. -/
def cOpen : SI2Connector where
  wsOpen := true
  reconnectAttempts := 0
  maxReconnectAttempts := 5

/-- A stats update that overwrites only `errors`, with 5. -/
def errUpdateA : StatsUpdate where
  audioChunksProcessed := none
  messagesExchanged := none
  agentHandoffs := none
  dataPointsCollected := none
  errors := some 5
  avgLatency := none

/-- A stats update that overwrites only `errors`, with 2. -/
def errUpdateB : StatsUpdate where
  audioChunksProcessed := none
  messagesExchanged := none
  agentHandoffs := none
  dataPointsCollected := none
  errors := some 2
  avgLatency := none

/-- `stDemo1` after `updateSessionStats` with `errUpdateA`. -/
def stErr5 : ManagerState :=
  updateSessionStats stDemo1 "call-1" errUpdateA

/-- `stErr5` after `updateSessionStats` with `errUpdateB`. -/
def stErr2 : ManagerState :=
  updateSessionStats stErr5 "call-1" errUpdateB

/-- A second session descriptor with a distinct call id. -/
def cfgDemo2 : SessionConfig where
  sessionId := "call-2"
  roomName := "room-2"
  participantId := "p-2"
  protocol := .webrtc
  config := "cfg2"

/-- `stDemo1` with a second live session created from `cfgDemo2` at time 3. -/
def stTwo : ManagerState :=
  (createSession stDemo1 cfgDemo2 3).2

theorem mapGet_set_self (m : SessionMap) (k : String) (v : BridgeSession) :
    mapGet (mapSet m k v) k = some v := by
  induction m with
  | nil => simp [mapGet, mapSet]
  | cons hd t ih =>
    by_cases hh : (hd.1 == k) = true
    · simp [mapSet, mapGet, hh]
    · simp [mapSet, mapGet, hh, ih]

theorem mapGet_update_self (m : SessionMap) (k : String) (f : BridgeSession → BridgeSession) :
    mapGet (mapUpdate m k f) k = (mapGet m k).map f := by
  induction m with
  | nil => simp [mapGet, mapUpdate]
  | cons hd t ih =>
    by_cases hh : (hd.1 == k) = true
    · simp [mapUpdate, mapGet, hh]
    · simp [mapUpdate, mapGet, hh, ih]

theorem mapGet_update_ne (m : SessionMap) (k j : String) (f : BridgeSession → BridgeSession)
    (h : j ≠ k) :
    mapGet (mapUpdate m k f) j = mapGet m j := by
  induction m with
  | nil => simp [mapGet, mapUpdate]
  | cons hd t ih =>
    by_cases hh : (hd.1 == k) = true
    · have hdk : hd.1 = k := by
        simpa using hh
      have hdj : (hd.1 == j) = false := by
        subst hdk
        simpa using fun he => h he.symm
      simp [mapUpdate, mapGet, hh, hdj]
    · simp only [mapUpdate, hh, if_false, Bool.not_eq_true]
      by_cases hj : (hd.1 == j) = true
      · simp [mapGet, hj]
      · simp [mapGet, hj, ih]

theorem mapGet_delete_self (m : SessionMap) (k : String) :
    mapGet (mapDelete m k) k = none := by
  induction m with
  | nil => simp [mapGet, mapDelete]
  | cons hd t ih =>
    by_cases hh : (hd.1 == k) = true
    · simp [mapDelete, hh, ih]
    · simp [mapDelete, mapGet, hh, ih]

theorem mapGet_delete_ne (m : SessionMap) (k j : String) (h : j ≠ k) :
    mapGet (mapDelete m k) j = mapGet m j := by
  induction m with
  | nil => rfl
  | cons hd t ih =>
    by_cases hh : (hd.1 == k) = true
    · have hdk : hd.1 = k := by
        simpa using hh
      have hdj : (hd.1 == j) = false := by
        subst hdk
        simpa using fun he => h he.symm
      simp [mapDelete, mapGet, hh, hdj, ih]
    · by_cases hj : (hd.1 == j) = true
      · simp [mapDelete, mapGet, hh, hj]
      · simp [mapDelete, mapGet, hh, hj, ih]

theorem getSession_createSession (st : ManagerState) (cfg : SessionConfig) (now : Nat) :
    getSession (createSession st cfg now).2 cfg.sessionId = some (createSession st cfg now).1 := by
  simp [createSession, getSession, mapGet_set_self]

theorem getSession_addDataPoint_self (st : ManagerState) (id : String)
    (dp : DataCollectionPoint) (s : BridgeSession) (h : getSession st id = some s) :
    getSession (addDataPoint st id dp) id =
      some { s with
               collectedData := s.collectedData ++ [dp]
               stats := { s.stats with dataPointsCollected := s.stats.dataPointsCollected + 1 } } := by
  unfold addDataPoint
  rw [h]
  unfold getSession at h ⊢
  simp only []
  rw [mapGet_update_self, h]
  rfl

theorem getSession_addDataPoint_other (st : ManagerState) (id j : String)
    (dp : DataCollectionPoint) (h : j ≠ id) :
    getSession (addDataPoint st id dp) j = getSession st j := by
  unfold addDataPoint
  cases hg : getSession st id with
  | none => rfl
  | some s =>
    unfold getSession
    simp only []
    rw [mapGet_update_ne _ _ _ _ h]

theorem getSession_recordAgentHandoff_self (st : ManagerState) (id fa ta : String)
    (s : BridgeSession) (h : getSession st id = some s) :
    getSession (recordAgentHandoff st id fa ta) id =
      some { s with
               currentAgent := ta
               stats := { s.stats with agentHandoffs := s.stats.agentHandoffs + 1 } } := by
  unfold recordAgentHandoff
  rw [h]
  unfold getSession at h ⊢
  simp only []
  rw [mapGet_update_self, h]
  rfl

theorem getSession_recordAgentHandoff_other (st : ManagerState) (id j fa ta : String)
    (h : j ≠ id) :
    getSession (recordAgentHandoff st id fa ta) j = getSession st j := by
  unfold recordAgentHandoff
  cases hg : getSession st id with
  | none => rfl
  | some s =>
    unfold getSession
    simp only []
    rw [mapGet_update_ne _ _ _ _ h]

theorem runDataPoints_getSession (points : List DataCollectionPoint) :
    ∀ (st : ManagerState) (id : String) (s : BridgeSession), getSession st id = some s →
      getSession (runDataPoints st id points) id =
        some { s with
                 collectedData := s.collectedData ++ points
                 stats :=
                   { s.stats with
                       dataPointsCollected := s.stats.dataPointsCollected + points.length } } := by
  induction points with
  | nil =>
    intro st id s h
    cases s with
    | mk sid rn pid pr stt et ca cd cf sts =>
      cases sts with
      | mk a b c d e f => simpa [runDataPoints] using h
  | cons hd rest ih =>
    intro st id s h
    have step := getSession_addDataPoint_self st id hd s h
    have tail := ih (addDataPoint st id hd) id _ step
    show getSession (runDataPoints (addDataPoint st id hd) id rest) id = _
    rw [tail]
    cases s with
    | mk sid rn pid pr stt et ca cd cf sts =>
      cases sts with
      | mk a b c d e f =>
        simp
        omega

theorem runHandoffs_getSession (calls : List (String × String)) :
    ∀ (st : ManagerState) (id : String) (s : BridgeSession), getSession st id = some s →
      getSession (runHandoffs st id calls) id =
        some { s with
                 currentAgent := calls.foldl (fun a c => c.2) s.currentAgent
                 stats :=
                   { s.stats with agentHandoffs := s.stats.agentHandoffs + calls.length } } := by
  induction calls with
  | nil =>
    intro st id s h
    cases s with
    | mk sid rn pid pr stt et ca cd cf sts =>
      cases sts with
      | mk a b c d e f => simpa [runHandoffs] using h
  | cons hd rest ih =>
    intro st id s h
    have step := getSession_recordAgentHandoff_self st id hd.1 hd.2 s h
    have tail := ih (recordAgentHandoff st id hd.1 hd.2) id _ step
    show getSession (runHandoffs (recordAgentHandoff st id hd.1 hd.2) id rest) id = _
    rw [tail]
    cases s with
    | mk sid rn pid pr stt et ca cd cf sts =>
      cases sts with
      | mk a b c d e f =>
        simp
        omega

theorem foldl_snd_getLastD (calls : List (String × String)) :
    ∀ init : String,
      calls.foldl (fun a c => c.2) init = (calls.map Prod.snd).getLastD init := by
  induction calls with
  | nil => intro init; rfl
  | cons hd rest ih =>
    intro init
    simp only [List.foldl_cons, List.map_cons, List.getLastD_cons]
    exact ih hd.2

theorem runClosures_spec (n : Nat) :
    ∀ (w : Bool) (a m : Nat), a ≤ m →
      (runClosures ⟨w, a, m⟩ n).1.reconnectAttempts = min (a + n) m ∧
      (runClosures ⟨w, a, m⟩ n).1.maxReconnectAttempts = m ∧
      (runClosures ⟨w, a, m⟩ n).2.1 = min (a + n) m - a ∧
      (runClosures ⟨w, a, m⟩ n).2.2 = List.replicate n ConnectorEvent.disconnected := by
  induction n with
  | zero =>
    intro w a m hc
    refine ⟨?_, rfl, ?_, rfl⟩ <;> simp [runClosures] <;> omega
  | succ n ih =>
    intro w a m hc
    have e1 : (runClosures ⟨w, a, m⟩ (n + 1)).1 = (runClosures (onClose ⟨w, a, m⟩).1 n).1 := rfl
    have e2 : (runClosures ⟨w, a, m⟩ (n + 1)).2.1
        = (if (onClose ⟨w, a, m⟩).2.2 then 1 else 0) + (runClosures (onClose ⟨w, a, m⟩).1 n).2.1 :=
      rfl
    have e3 : (runClosures ⟨w, a, m⟩ (n + 1)).2.2
        = (onClose ⟨w, a, m⟩).2.1 ++ (runClosures (onClose ⟨w, a, m⟩).1 n).2.2 := rfl
    by_cases hlt : a < m
    · have hoc : onClose ⟨w, a, m⟩ = (⟨false, a + 1, m⟩, [ConnectorEvent.disconnected], true) := by
        simp [onClose, attemptReconnect, hlt]
      obtain ⟨t1, t2, t3, t4⟩ := ih false (a + 1) m (by omega)
      refine ⟨?_, ?_, ?_, ?_⟩
      · rw [e1, hoc]
        simp only []
        rw [t1]
        omega
      · rw [e1, hoc]
        exact t2
      · rw [e2, hoc]
        simp only [if_pos]
        rw [t3]
        omega
      · rw [e3, hoc]
        simp only []
        rw [t4]
        simp [List.replicate_succ]
    · have hoc : onClose ⟨w, a, m⟩ = (⟨false, a, m⟩, [ConnectorEvent.disconnected], false) := by
        simp [onClose, attemptReconnect, hlt]
      obtain ⟨t1, t2, t3, t4⟩ := ih false a m hc
      refine ⟨?_, ?_, ?_, ?_⟩
      · rw [e1, hoc]
        simp only []
        rw [t1]
        omega
      · rw [e1, hoc]
        exact t2
      · rw [e2, hoc]
        rw [t3]
        simp
        omega
      · rw [e3, hoc]
        simp only []
        rw [t4]
        simp [List.replicate_succ]

theorem trimHistory_count_of_not_mem (hist : List BridgeSession) (e : BridgeSession)
    (he : e ∉ hist) :
    (trimHistory (hist ++ [e])).count e = 1 := by
  unfold trimHistory
  by_cases hlen : (hist ++ [e]).length > 100
  · rw [if_pos hlen]
    have hk : (hist ++ [e]).length - 100 ≤ hist.length := by
      simp
    rw [List.drop_append_of_le_length hk]
    rw [List.count_append]
    have h0 : (hist.drop ((hist ++ [e]).length - 100)).count e = 0 := by
      have hsub := (List.drop_sublist ((hist ++ [e]).length - 100) hist).count_le e
      have hz : hist.count e = 0 := List.count_eq_zero.mpr he
      omega
    rw [h0]
    simp
  · rw [if_neg hlen]
    rw [List.count_append]
    have hz : hist.count e = 0 := List.count_eq_zero.mpr he
    rw [hz]
    simp

theorem trimHistory_getLast (hist : List BridgeSession) (e : BridgeSession) :
    (trimHistory (hist ++ [e])).getLast? = some e := by
  unfold trimHistory
  by_cases hlen : (hist ++ [e]).length > 100
  · rw [if_pos hlen]
    have hk : (hist ++ [e]).length - 100 ≤ hist.length := by
      simp
    rw [List.drop_append_of_le_length hk]
    exact List.getLast?_concat _
  · rw [if_neg hlen]
    exact List.getLast?_concat _

/-- C1: after every `SessionManager.addDataPoint` call on a live session,
`stats.dataPointsCollected` equals the length of `collectedData` and the order
of `collectedData` equals the order of the calls (first conjunct); but the
`SIPAdapter` `data_collection` handler appends to `collectedData` without
incrementing the counter, breaking the equality at the concrete failing input
(last two conjuncts): one dispatched data point leaves the counter at 0 while
the sequence has length 1. -/
theorem C1_dataPoint_invariant :
    (∀ (st : ManagerState) (cfg : SessionConfig) (now : Nat)
        (dps : List DataCollectionPoint),
        getSession (runDataPoints (createSession st cfg now).2 cfg.sessionId dps)
            cfg.sessionId =
          some { (createSession st cfg now).1 with
                   collectedData := dps
                   stats :=
                     { (createSession st cfg now).1.stats with
                         dataPointsCollected := dps.length } }) ∧
    (sipAdapterOnDataCollection sessDemo dpDemo).collectedData.length = 1 ∧
    (sipAdapterOnDataCollection sessDemo dpDemo).stats.dataPointsCollected = 0 := by
  refine ⟨?_, rfl, rfl⟩
  intro st cfg now dps
  have h := runDataPoints_getSession dps (createSession st cfg now).2 cfg.sessionId
    (createSession st cfg now).1 (getSession_createSession st cfg now)
  rw [h]
  simp [createSession]

/-- C2 counterexample: `createSession` on a state whose active set already
holds a live session under `"call-1"` does not fail and does not leave the
active set unchanged — it succeeds and replaces the live session. -/
theorem C2_counterexample :
    getSession (createSession stDemo cfgDemo 5).2 "call-1" ≠ getSession stDemo "call-1" ∧
    (createSession stDemo cfgDemo 5).2.activeSessions ≠ stDemo.activeSessions ∧
    (getSession (createSession stDemo cfgDemo 5).2 "call-1").isSome = true := by
  decide

/-- C2 (amended): `createSession` performs no duplicate check: for every
registry state — in particular one in which the call id is already active —
it succeeds, and afterwards the active set maps the call id to the freshly
created session (empty `collectedData`, `startTime = now`, initial agent
`"authentication"`). -/
theorem C2_createSession_replaces :
    ∀ (st : ManagerState) (cfg : SessionConfig) (now : Nat),
      getSession (createSession st cfg now).2 cfg.sessionId =
          some (createSession st cfg now).1 ∧
      (createSession st cfg now).1.collectedData = [] ∧
      (createSession st cfg now).1.startTime = now ∧
      (createSession st cfg now).1.currentAgent = "authentication" :=
  fun st cfg now => ⟨getSession_createSession st cfg now, rfl, rfl, rfl⟩

/-- C3 counterexample: the run with six consecutive transport closures from a
fresh connector (the initial closure plus one closure per failed reconnect)
makes exactly 5 reconnect attempts, and its complete emitted-event trace is
six plain `disconnected` events; in particular the exhaustion step — the
closure arriving when the counter already equals the maximum — emits only the
ordinary `disconnected` event and schedules nothing: no terminal failure
event is emitted at all, let alone exactly once. -/
theorem C3_exhaustion_silent :
    runClosures initConnector 6 =
      ({ wsOpen := false, reconnectAttempts := 5, maxReconnectAttempts := 5 }, 5,
        List.replicate 6 ConnectorEvent.disconnected) ∧
    onClose (runClosures initConnector 5).1 =
      ({ wsOpen := false, reconnectAttempts := 5, maxReconnectAttempts := 5 },
        [ConnectorEvent.disconnected], false) := by
  decide

/-- C3 (amended): over any run of consecutive transport closures, the number
of reconnect attempts never exceeds the configured maximum (default 5); once
the maximum is reached `attemptReconnect` schedules no further connect
attempt; and no terminal failure event is emitted — every event of such a run
is a plain `disconnected`. -/
theorem C3_reconnect_bounded : ∀ n : Nat,
    (runClosures initConnector n).2.1 ≤ 5 ∧
    (runClosures initConnector (n + 5)).2.1 = 5 ∧
    (attemptReconnect (runClosures initConnector (n + 5)).1).2 = false ∧
    (runClosures initConnector n).2.2 = List.replicate n ConnectorEvent.disconnected := by
  intro n
  have hi : initConnector = (⟨false, 0, 5⟩ : SI2Connector) := rfl
  rw [hi]
  obtain ⟨a1, a2, a3, a4⟩ := runClosures_spec n false 0 5 (by omega)
  obtain ⟨b1, b2, b3, b4⟩ := runClosures_spec (n + 5) false 0 5 (by omega)
  refine ⟨?_, ?_, ?_, a4⟩
  · rw [a3]
    omega
  · rw [b3]
    omega
  · have ha : (runClosures (⟨false, 0, 5⟩ : SI2Connector) (n + 5)).1.reconnectAttempts = 5 := by
      rw [b1]
      omega
    simp [attemptReconnect, ha, b2]

/-- C4 counterexample: `sendAudio` on a connector whose socket is not open
raises nothing — there is no `NotConnectedError`; the chunk is simply
dropped (nothing transmitted). -/
theorem C4_sendAudio_no_error :
    (sendAudio initConnector [1, 2, 3]).thrown = none ∧
    (sendAudio initConnector [1, 2, 3]).transmitted = none :=
  ⟨rfl, rfl⟩

/-- C4 (amended): whenever `sendAudio` is called while the connector is not
connected, no envelope is transmitted and nothing is queued — but the call is
not rejected either: it returns silently without raising any error. -/
theorem C4_sendAudio_silently_drops :
    ∀ (attempts maxAttempts : Nat) (buf : List Nat),
      sendAudio
          { wsOpen := false, reconnectAttempts := attempts,
            maxReconnectAttempts := maxAttempts } buf =
        { transmitted := none, thrown := none } :=
  fun _ _ _ => rfl

/-- C5 counterexample: the original claim says a created session is returned
by `getSession` until `endSession` is called on its id — but a second
`createSession` with the same call id replaces the live session without any
`endSession`: the created session `sessDemo` stops being returned and never
reaches the history. -/
theorem C5_counterexample :
    getSession stDemo1 "call-1" = some sessDemo ∧
    getSession (createSession stDemo1 cfgDemo 5).2 "call-1" ≠ some sessDemo ∧
    sessDemo ∉ (createSession stDemo1 cfgDemo 5).2.sessionHistory := by
  decide

/-- C5 (amended): a created session is returned by `getSession` while it
stays active: it stays present under `addDataPoint`, `recordAgentHandoff`
and `updateSessionStats` (which mutate it in place), and `endSession` on a
different id leaves it untouched; it stops being returned only when
`endSession` is called on its id — or when `createSession` runs again with
the same id, which replaces it without archiving it (the counterexample).
For a live session not already duplicated in history, `endSession` returns
it with `endTime` set, removes it from the active set, makes it appear
exactly once in history, and a second `endSession` on the same id returns
not-found and changes no state. -/
theorem C5_session_lifecycle :
    (∀ (st : ManagerState) (cfg : SessionConfig) (now : Nat),
        getSession (createSession st cfg now).2 cfg.sessionId =
          some (createSession st cfg now).1) ∧
    (∀ (st : ManagerState) (j id : String) (dp : DataCollectionPoint),
        (getSession (addDataPoint st j dp) id).isSome = (getSession st id).isSome) ∧
    (∀ (st : ManagerState) (j id fa ta : String),
        (getSession (recordAgentHandoff st j fa ta) id).isSome =
          (getSession st id).isSome) ∧
    (∀ (st : ManagerState) (j id : String) (u : StatsUpdate),
        (getSession (updateSessionStats st j u) id).isSome =
          (getSession st id).isSome) ∧
    (∀ (st : ManagerState) (j id : String) (now : Nat), id ≠ j →
        getSession (endSession st j now).2 id = getSession st id) ∧
    (∀ (st : ManagerState) (id : String) (now now2 : Nat) (s : BridgeSession),
        getSession st id = some s →
        ({ s with endTime := some now } : BridgeSession) ∉ st.sessionHistory →
        (endSession st id now).1 = some { s with endTime := some now } ∧
        getSession (endSession st id now).2 id = none ∧
        (endSession st id now).2.sessionHistory.count { s with endTime := some now } = 1 ∧
        endSession (endSession st id now).2 id now2 = (none, (endSession st id now).2)) := by
  refine ⟨getSession_createSession, ?_, ?_, ?_, ?_, ?_⟩
  · intro st j id dp
    unfold addDataPoint
    cases hg : getSession st j with
    | none => rfl
    | some s0 =>
      show (mapGet (mapUpdate st.activeSessions j _) id).isSome
          = (mapGet st.activeSessions id).isSome
      by_cases hij : id = j
      · subst hij
        rw [mapGet_update_self]
        cases mapGet st.activeSessions id <;> rfl
      · rw [mapGet_update_ne _ _ _ _ hij]
  · intro st j id fa ta
    unfold recordAgentHandoff
    cases hg : getSession st j with
    | none => rfl
    | some s0 =>
      show (mapGet (mapUpdate st.activeSessions j _) id).isSome
          = (mapGet st.activeSessions id).isSome
      by_cases hij : id = j
      · subst hij
        rw [mapGet_update_self]
        cases mapGet st.activeSessions id <;> rfl
      · rw [mapGet_update_ne _ _ _ _ hij]
  · intro st j id u
    unfold updateSessionStats
    cases hg : getSession st j with
    | none => rfl
    | some s0 =>
      show (mapGet (mapUpdate st.activeSessions j _) id).isSome
          = (mapGet st.activeSessions id).isSome
      by_cases hij : id = j
      · subst hij
        rw [mapGet_update_self]
        cases mapGet st.activeSessions id <;> rfl
      · rw [mapGet_update_ne _ _ _ _ hij]
  · intro st j id now hne
    cases hg : getSession st j with
    | none => simp [endSession, hg]
    | some s0 =>
      show getSession (endSession st j now).2 id = getSession st id
      have he : (endSession st j now).2.activeSessions = mapDelete st.activeSessions j := by
        simp [endSession, hg]
      show mapGet (endSession st j now).2.activeSessions id = mapGet st.activeSessions id
      rw [he]
      exact mapGet_delete_ne _ _ _ hne
  intro st id now now2 s h hmem
  have he : endSession st id now =
      (some { s with endTime := some now },
        { st with
            sessionHistory := trimHistory (st.sessionHistory ++ [{ s with endTime := some now }])
            activeSessions := mapDelete st.activeSessions id }) := by
    simp [endSession, h]
  have hgone : getSession (endSession st id now).2 id = none := by
    rw [he]
    show mapGet (mapDelete st.activeSessions id) id = none
    exact mapGet_delete_self _ _
  refine ⟨by rw [he], hgone, ?_, ?_⟩
  · rw [he]
    exact trimHistory_count_of_not_mem _ _ hmem
  · generalize hst2 : (endSession st id now).2 = st2 at hgone ⊢
    simp [endSession, hgone]

/-- C5 witness: the lifecycle theorem applied concretely: ending the second
live session `"call-2"` of `stTwo` leaves `"call-1"` untouched, and the
session created from `cfgDemo` is ended at time 7 and ended again at time 9. -/
theorem C5_session_lifecycle_witness :
    getSession (endSession stTwo "call-2" 7).2 "call-1" = getSession stTwo "call-1" ∧
    ((endSession stDemo1 "call-1" 7).1 = some endedDemo ∧
      getSession (endSession stDemo1 "call-1" 7).2 "call-1" = none ∧
      (endSession stDemo1 "call-1" 7).2.sessionHistory.count endedDemo = 1 ∧
      endSession (endSession stDemo1 "call-1" 7).2 "call-1" 9 =
        (none, (endSession stDemo1 "call-1" 7).2)) :=
  ⟨C5_session_lifecycle.2.2.2.2.1 stTwo "call-2" "call-1" 7 (by decide),
    C5_session_lifecycle.2.2.2.2.2 stDemo1 "call-1" 7 9 sessDemo (by decide) (by decide)⟩

/-- C6 counterexample: processing one malformed frame leaves the connector
and the owning session exactly as they were — in particular the session's
`stats.errors` counter is not incremented: no code path ties a parse failure
to the session's error counter. -/
theorem C6_parse_failure_no_error_increment :
    frameRound cOpen sessDemo none = (cOpen, sessDemo) ∧
    (frameRound cOpen sessDemo none).2.stats.errors = 0 ∧
    ¬ ((frameRound cOpen sessDemo none).2.stats.errors = sessDemo.stats.errors + 1) := by
  decide

/-- C6 (amended): a parse failure is logged and dropped without closing the
connection: processing any frame list leaves the connector state unchanged
and dispatches exactly the parseable frames' events in receipt order, a
malformed frame leaves the owning session untouched, and in particular its
`stats.errors` counter is not incremented. -/
theorem C6_parse_failure_keeps_channel :
    (∀ (c : SI2Connector) (frames : List (Option SI2Message)),
        processFrames c frames =
          (c, (frames.filterMap (fun f => f)).flatMap handleMessage)) ∧
    (∀ (c : SI2Connector) (session : BridgeSession),
        frameRound c session none = (c, session)) ∧
    (∀ (c : SI2Connector) (session : BridgeSession),
        (frameRound c session none).2.stats.errors = session.stats.errors) := by
  refine ⟨?_, fun c session => rfl, fun c session => rfl⟩
  intro c frames
  induction frames with
  | nil => rfl
  | cons f rest ih =>
    cases f with
    | none => simpa [processFrames, onMessageFrame] using ih
    | some m => simp [processFrames, onMessageFrame, ih]

/-- C7 counterexample: `updateSessionStats` overwrites supplied fields with
the given values: after setting `errors` to 5 a later update sets it to 2 —
the counter decreases across a registry operation. -/
theorem C7_updateStats_can_decrease :
    (getSession stErr5 "call-1").map (fun s => s.stats.errors) = some 5 ∧
    (getSession stErr2 "call-1").map (fun s => s.stats.errors) = some 2 := by
  decide

/-- C7 (amended): the increment-only registry operations never decrease any
stats counter: `addDataPoint` and `recordAgentHandoff` leave every counter of
every active session ≥ its previous value, and `endSession` returns the
session with its stats unchanged. (`updateSessionStats` is excluded: it
overwrites the supplied fields and can decrease them.) -/
theorem C7_counters_monotone :
    (∀ (st : ManagerState) (id j : String) (dp : DataCollectionPoint)
        (s s' : BridgeSession),
        getSession st j = some s →
        getSession (addDataPoint st id dp) j = some s' →
        StatsLe s.stats s'.stats) ∧
    (∀ (st : ManagerState) (id j fa ta : String) (s s' : BridgeSession),
        getSession st j = some s →
        getSession (recordAgentHandoff st id fa ta) j = some s' →
        StatsLe s.stats s'.stats) ∧
    (∀ (st : ManagerState) (id : String) (now : Nat) (s : BridgeSession),
        getSession st id = some s →
        (endSession st id now).1 = some { s with endTime := some now }) := by
  refine ⟨?_, ?_, ?_⟩
  · intro st id j dp s s' hs hs'
    by_cases hj : j = id
    · subst hj
      rw [getSession_addDataPoint_self st j dp s hs] at hs'
      injection hs' with h'
      subst h'
      simp [StatsLe]
    · rw [getSession_addDataPoint_other st id j dp hj, hs] at hs'
      injection hs' with h'
      subst h'
      simp [StatsLe]
  · intro st id j fa ta s s' hs hs'
    by_cases hj : j = id
    · subst hj
      rw [getSession_recordAgentHandoff_self st j fa ta s hs] at hs'
      injection hs' with h'
      subst h'
      simp [StatsLe]
    · rw [getSession_recordAgentHandoff_other st id j fa ta hj, hs] at hs'
      injection hs' with h'
      subst h'
      simp [StatsLe]
  · intro st id now s h
    simp [endSession, h]

/-- C7 witness: the monotonicity theorem applied to the concrete
`addDataPoint` call on the session created from `cfgDemo`. -/
theorem C7_counters_monotone_witness :
    StatsLe sessDemo.stats dataDemoSession.stats :=
  C7_counters_monotone.1 stDemo1 "call-1" "call-1" dpDemo sessDemo dataDemoSession
    (by decide) (by decide)

/-- C8: for every sequence of `recordAgentHandoff` calls on a live session,
`stats.agentHandoffs` equals the number of calls — each occurrence counted,
duplicates and `from = to` included — and `currentAgent` equals the `to` of
the most recent call (the initial agent when there is none). -/
theorem C8_handoffs_counted :
    ∀ (st : ManagerState) (cfg : SessionConfig) (now : Nat)
      (calls : List (String × String)),
      getSession (runHandoffs (createSession st cfg now).2 cfg.sessionId calls)
          cfg.sessionId =
        some { (createSession st cfg now).1 with
                 currentAgent := (calls.map Prod.snd).getLastD "authentication"
                 stats :=
                   { (createSession st cfg now).1.stats with
                       agentHandoffs := calls.length } } := by
  intro st cfg now calls
  have h := runHandoffs_getSession calls (createSession st cfg now).2 cfg.sessionId
    (createSession st cfg now).1 (getSession_createSession st cfg now)
  rw [h, foldl_snd_getLastD]
  simp [createSession]

/-- C9: the audio conversions are exact byte-for-byte pass-throughs on raw
PCM buffers, so converting a canonical-format buffer to the backend format
and back returns a byte-identical buffer. -/
theorem C9_audio_roundtrip :
    ∀ (base64Decode : String → List Nat) (buf : List Nat),
      convertSI2ToLiveKit base64Decode (AudioData.buf (convertLiveKitToSI2 buf)) =
          Except.ok buf ∧
      convertLiveKitToSI2 buf = buf ∧
      convertSI2ToLiveKit base64Decode (AudioData.buf buf) = Except.ok buf :=
  fun _ _ => ⟨rfl, rfl, rfl⟩

/-- C10: `endSession` modifies only `endTime`: the session it returns is the
active entry with just `endTime` set to the end timestamp (every other field
untouched), and exactly that object becomes the last history entry; when the
id is unknown nothing is returned and the history is untouched. -/
theorem C10_endSession_frame :
    ∀ (st : ManagerState) (id : String) (now : Nat),
      (endSession st id now).1 =
          (getSession st id).map (fun s => { s with endTime := some now }) ∧
      (endSession st id now).2.sessionHistory.getLast? =
        (match getSession st id with
         | some s => some { s with endTime := some now }
         | none => st.sessionHistory.getLast?) := by
  intro st id now
  cases hg : getSession st id with
  | none => simp [endSession, hg]
  | some s =>
    refine ⟨by simp [endSession, hg], ?_⟩
    have he : (endSession st id now).2.sessionHistory =
        trimHistory (st.sessionHistory ++ [{ s with endTime := some now }]) := by
      simp [endSession, hg]
    rw [he]
    exact trimHistory_getLast _ _

end VoiceAgentBridge
